import Mathlib

/-!
Verification of the torn-oc-items retry/backoff core, notification circuit
breaker, dedup and matching logic, against a shallow embedding of the Go
source. Durations are modelled in integer nanoseconds (Go `time.Duration` is
an `int64` nanosecond count); timestamps for the circuit breaker are integer
seconds. The random jitter factor is an explicit rational parameter, and the
`float64 -> time.Duration` conversion at the end of the jitter computation is
modelled as truncation toward zero, which is Go's float-to-integer conversion
rule.
-/

namespace TornOC

/-- Signed 64-bit wraparound, the semantics of Go `int64` multiplication
overflow in `time.Duration(multiplier) * baseDelay`
(src/unnamed/part_006, line 87). -/
def wrap64 (x : Int) : Int :=
  (x + 2 ^ 63) % 2 ^ 64 - 2 ^ 63

/-- Truncation toward zero of a rational, the semantics of Go's conversion
`time.Duration(float64(delay) * jitter)` (src/unnamed/part_006, line 95). -/
def truncQ (x : ℚ) : Int :=
  if 0 ≤ x then ⌊x⌋ else -⌊-x⌋

/-- Embedding of `calculateBackoffDelay` (src/unnamed/part_006, lines 83-103).
`baseDelay`, `maxDelay` and the result are nanosecond counts. The jitter
factor `0.5 + rand.Float64()`, which ranges over `[0.5, 1.5)`, is passed
explicitly as `jitter`. `1 << safeAttempt` fits in an int (safeAttempt is at
most 30), but the product `multiplier * baseDelay` is an int64 multiplication
and wraps around, hence `wrap64`. -/
def calculateBackoffDelay (attempt : Nat) (baseDelay maxDelay : Int) (jitter : ℚ) : Int :=
  let safeAttempt := min attempt 30
  let multiplier : Int := 2 ^ safeAttempt
  let delay0 := wrap64 (multiplier * baseDelay)
  let delay1 := if delay0 > maxDelay then maxDelay else delay0
  let jittered := truncQ ((delay1 : ℚ) * jitter)
  if jittered > maxDelay then maxDelay else jittered

/-- The pre-jitter delay `min(baseDelay * 2^min(attempt,30), maxDelay)` named
by the spec's backoff bound (spec.md section 4.1); stated in exact integer
arithmetic, without the int64 wraparound of the code. -/
def idealDelay (attempt : Nat) (baseDelay maxDelay : Int) : Int :=
  min (2 ^ min attempt 30 * baseDelay) maxDelay

/-- Terminal error of `WithRetry` (src/unnamed/part_006): either the wrapped
exhaustion error `operation failed after %d attempts: %w` carrying the total
attempt count and the last underlying error, or the parent context's own
cancellation error `ctx.Err()`. -/
inductive RetryError (ε : Type) where
  | exhausted : Nat → ε → RetryError ε
  | ctxCanceled : RetryError ε
deriving Repr, DecidableEq

/-- Embedding of the loop of `WithRetry` (src/unnamed/part_006, lines 20-81).
`op n` is the outcome of the n-th invocation of the operation (0-based);
`zero` is the Go zero value of the result type; `ctxTop n` tells whether the
parent context is already done at the top-of-loop `select` of iteration `n`;
`ctxWait n` tells whether the parent context's cancellation wins the
`select` between `ctx.Done()` and `time.After(delay)` during the backoff
wait that follows the n-th failed attempt. The backoff delay value itself
does not influence control flow and is dropped. `fuel` bounds the number of
iterations unfolded (the Go loop has no such bound; `none` means the bound
was reached), and the returned `Nat` counts invocations of the operation. -/
def withRetryGo (inf : Bool) (maxRetries : Nat) (zero : α) (op : Nat → Except ε α)
    (ctxTop ctxWait : Nat → Bool) :
    Nat → Nat → Option (Nat × α × Option (RetryError ε))
  | 0, _ => none
  | fuel + 1, attempt =>
    if ctxTop attempt = true then some (0, zero, some RetryError.ctxCanceled)
    else
      match op attempt with
      | Except.ok a => some (1, a, none)
      | Except.error e =>
        if inf = false ∧ maxRetries ≤ attempt then
          some (1, zero, some (RetryError.exhausted (maxRetries + 1) e))
        else if ctxWait attempt = true then
          some (1, zero, some RetryError.ctxCanceled)
        else
          (withRetryGo inf maxRetries zero op ctxTop ctxWait fuel (attempt + 1)).map
            (fun r => (r.1 + 1, r.2))

/-- `WithRetry` started at attempt 0 (src/unnamed/part_006, line 22). -/
def withRetry (inf : Bool) (maxRetries : Nat) (zero : α) (op : Nat → Except ε α)
    (ctxTop ctxWait : Nat → Bool) (fuel : Nat) :
    Option (Nat × α × Option (RetryError ε)) :=
  withRetryGo inf maxRetries zero op ctxTop ctxWait fuel 0

/-- Embedding of the Torn client's `makeAPIRequest`
(src/internal/torn/client.go, lines 158-180): the retried operation builds a
request, performs the HTTP call (`httpDo n` is the n-th attempt's outcome,
`Except.error` being a transport error), and increments the shared API call
counter only after the call returns without a transport error. The counter
is threaded through the retry loop explicitly: the first component of the
result is the final counter value. `makeAPIRequest` always uses the bounded
`DefaultResilienceConfig.APIRequest` policy, so there is no infinite flag.
The remaining components are the invocation count and the `WithRetry`
result, as in `withRetryGo`. -/
def makeAPIRequestGo (maxRetries : Nat) (zero : ρ) (httpDo : Nat → Except ε ρ)
    (ctxTop ctxWait : Nat → Bool) :
    Nat → Nat → Nat → Option (Nat × Nat × ρ × Option (RetryError ε))
  | 0, _, _ => none
  | fuel + 1, attempt, counter =>
    if ctxTop attempt = true then some (counter, 0, zero, some RetryError.ctxCanceled)
    else
      match httpDo attempt with
      | Except.ok resp => some (counter + 1, 1, resp, none)
      | Except.error e =>
        if maxRetries ≤ attempt then
          some (counter, 1, zero, some (RetryError.exhausted (maxRetries + 1) e))
        else if ctxWait attempt = true then
          some (counter, 1, zero, some RetryError.ctxCanceled)
        else
          (makeAPIRequestGo maxRetries zero httpDo ctxTop ctxWait fuel (attempt + 1) counter).map
            (fun r => (r.1, r.2.1 + 1, r.2.2))

/-- State of the notification client's circuit breaker and metrics
(src/internal/notifications/client.go, lines 27-35): `failures` is the
consecutive-failure count, `lastFailure` a second-resolution timestamp, and
the totals are the observability counters. -/
structure ClientState where
  failures : Nat
  circuitOpen : Bool
  lastFailure : Int
  totalSent : Nat
  totalFailed : Nat
  totalRetries : Nat
deriving Repr, DecidableEq

/-- The circuit breaker state of a freshly constructed client
(src/internal/notifications/client.go, `NewClient`). -/
def initialClientState : ClientState :=
  { failures := 0, circuitOpen := false, lastFailure := 0,
    totalSent := 0, totalFailed := 0, totalRetries := 0 }

/-- Embedding of `recordSuccess` (src/internal/notifications/client.go,
lines 332-342): increments `totalSent`; resets `failures` and closes the
circuit only when the circuit is currently open. -/
def recordSuccess (s : ClientState) : ClientState :=
  let s1 := { s with totalSent := s.totalSent + 1 }
  if s1.circuitOpen then { s1 with circuitOpen := false, failures := 0 } else s1

/-- Embedding of `recordFailure` (src/internal/notifications/client.go,
lines 344-359): increments `totalFailed` and `failures`, stamps
`lastFailure := now`, and opens the circuit when the failure count has
reached 5 and the circuit is not already open. -/
def recordFailure (now : Int) (s : ClientState) : ClientState :=
  let s1 := { s with totalFailed := s.totalFailed + 1, failures := s.failures + 1,
                     lastFailure := now }
  if 5 ≤ s1.failures ∧ s1.circuitOpen = false then { s1 with circuitOpen := true } else s1

/-- Embedding of `incrementRetries` (src/internal/notifications/client.go,
lines 361-365). -/
def incrementRetries (s : ClientState) : ClientState :=
  { s with totalRetries := s.totalRetries + 1 }

/-- Embedding of `isCircuitOpen` (src/internal/notifications/client.go,
lines 310-330): returns whether the circuit blocks the send, together with
the possibly-updated state. When the circuit is open and more than 30
seconds have passed since the last failure, it closes the circuit, zeroes
the failure count, and reports the circuit as not open (the Go code returns
the mutated `c.circuitOpen`). -/
def isCircuitOpen (now : Int) (s : ClientState) : Bool × ClientState :=
  if s.circuitOpen = false then (false, s)
  else if 30 < now - s.lastFailure then
    (false, { s with circuitOpen := false, failures := 0 })
  else (true, s)

/-- Embedding of `NotificationError` (src/internal/notifications/client.go,
lines 44-49); the wrapped `Underlying` Go error value is not modelled. -/
structure NotificationError where
  typ : String
  statusCode : Int
  attempt : Nat
deriving Repr, DecidableEq

/-- Embedding of `NotificationError.IsRetryable`
(src/internal/notifications/client.go, lines 55-66): the Go `switch` on the
error type, with the default case retryable exactly when the status code is
at least 500. -/
def NotificationError.IsRetryable (e : NotificationError) : Bool :=
  if e.typ = "network" ∨ e.typ = "server" ∨ e.typ = "timeout" then true
  else if e.typ = "rate_limit" then true
  else if e.typ = "auth" ∨ e.typ = "client" then false
  else decide (500 ≤ e.statusCode)

/-- Embedding of `categorizeHTTPError` (src/internal/notifications/client.go,
lines 385-398): the Go `switch` over the status code, cases in source
order. -/
def categorizeHTTPError (statusCode : Int) : String :=
  if statusCode = 401 ∨ statusCode = 403 then "auth"
  else if statusCode = 429 then "rate_limit"
  else if 400 ≤ statusCode ∧ statusCode < 500 then "client"
  else if 500 ≤ statusCode then "server"
  else "unknown"

/-- Embedding of the per-send retry loop of `SendNotification`
(src/internal/notifications/client.go, lines 101-152), under a parent
context that is never cancelled during the backoff waits. `attemptOutcome n`
is the result of the n-th `sendSingleNotification` call (`none` = success);
`remaining` is `maxRetries - attempt`, and `maxRetries` is carried only for
the attempt count stamped into the terminal error. Returns the Go error
result, the updated breaker state, and the number of
`sendSingleNotification` invocations. On success it records a success; on a
non-retryable error, or when the attempts are exhausted, it records a
failure at time `now`. -/
def sendAttempts (maxRetries : Nat) (now : Int) (attemptOutcome : Nat → Option NotificationError) :
    Nat → Nat → ClientState → Option NotificationError × ClientState × Nat
  | 0, attempt, s =>
    let s1 := if 0 < attempt then incrementRetries s else s
    match attemptOutcome attempt with
    | none => (none, recordSuccess s1, 1)
    | some e =>
      if e.IsRetryable = false then (some e, recordFailure now s1, 1)
      else
        (some { typ := "max_retries_exceeded", statusCode := 0, attempt := maxRetries + 1 },
          recordFailure now s1, 1)
  | r + 1, attempt, s =>
    let s1 := if 0 < attempt then incrementRetries s else s
    match attemptOutcome attempt with
    | none => (none, recordSuccess s1, 1)
    | some e =>
      if e.IsRetryable = false then (some e, recordFailure now s1, 1)
      else
        let rest := sendAttempts maxRetries now attemptOutcome r (attempt + 1) s1
        (rest.1, rest.2.1, rest.2.2 + 1)

/-- Embedding of `SendNotification` (src/internal/notifications/client.go,
lines 84-152): a disabled client returns nil immediately; otherwise the
circuit breaker is consulted (possibly resetting it per the half-open rule)
and, when open, a `circuit_open` error is returned with no send attempt;
otherwise the per-send retry loop runs from attempt 0. The third component
counts `sendSingleNotification` invocations. -/
def sendNotification (enabled : Bool) (maxRetries : Nat) (now : Int)
    (attemptOutcome : Nat → Option NotificationError) (s : ClientState) :
    Option NotificationError × ClientState × Nat :=
  if enabled = false then (none, s, 0)
  else
    let gate := isCircuitOpen now s
    if gate.1 then
      (some { typ := "circuit_open", statusCode := 0, attempt := 0 }, gate.2, 0)
    else sendAttempts maxRetries now attemptOutcome maxRetries 0 gate.2

/-- Embedding of `torn.SuppliedItem` (src/internal/torn/client.go,
lines 93-97). -/
structure SuppliedItem where
  itemID : Nat
  userID : Nat
  crimeID : Nat
deriving Repr, DecidableEq

/-- The crime report URL built in `processSuppliedItems` (src/main.go,
line 529). -/
def crimeURLOf (crimeID : Nat) : String :=
  "http://www.torn.com/factions.php?step=your#/tab=crimes&crimeId=" ++ toString crimeID

/-- The composite dedup key `crimeURL|userName|itemName` (src/main.go,
line 541). -/
def compositeKey (crimeURL userName itemName : String) : String :=
  crimeURL ++ "|" ++ userName ++ "|" ++ itemName

/-- The market-value formula placed in column H of an appended row
(src/main.go, line 546). -/
def rowFormula : String :=
  "=IF(OR(INDIRECT(\"A\"&ROW())=\"Provided\",INDIRECT(\"A\"&ROW())=\"Cash Sent\"), INDIRECT(\"G\"&ROW()), 0)"

/-- The row appended for a new supplied item (src/main.go, line 547);
every cell value is a string. -/
def suppliedRow (crimeURL itemName userName : String) : List String :=
  ["Needed", "", crimeURL, "", itemName, userName, "", rowFormula]

/-- The composite key computed for a supplied item, with `itemNameOf` and
`userNameOf` standing for the (cached, fallback-producing) resolution calls
`getItemDetails` and `getUserDetails` (src/main.go, lines 531-532). -/
def suppliedKey (itemNameOf userNameOf : Nat → String) (itm : SuppliedItem) : String :=
  compositeKey (crimeURLOf itm.crimeID) (userNameOf itm.userID) (itemNameOf itm.itemID)

/-- Embedding of the loop of `processSuppliedItems` (src/main.go,
lines 523-563, identical to `ProcessSuppliedItems` in
src/internal/processing/supplied.go, lines 34-74): for each supplied item
the composite key is computed and looked up in `existing`, the dedup set
built from the sheet before the loop; a row is appended exactly when the key
is absent. `existing` is never extended during the loop. -/
def processSuppliedItems (itemNameOf userNameOf : Nat → String)
    (existing : String → Bool) : List SuppliedItem → List (List String)
  | [] => []
  | itm :: rest =>
    let crimeURL := crimeURLOf itm.crimeID
    let itemName := itemNameOf itm.itemID
    let userName := userNameOf itm.userID
    let key := compositeKey crimeURL userName itemName
    if existing key = false then
      suppliedRow crimeURL itemName userName
        :: processSuppliedItems itemNameOf userNameOf existing rest
    else processSuppliedItems itemNameOf userNameOf existing rest

/-- Embedding of `SheetItem` (src/main.go, lines 206-213): a parsed
spreadsheet row; `hasProvider` is true when column B is non-blank. -/
structure SheetItem where
  rowIndex : Nat
  crimeURL : String
  itemName : String
  userName : String
  provider : String
  hasProvider : Bool
deriving Repr, DecidableEq

/-- Embedding of `SheetRowUpdate` (src/main.go, lines 28-33); the market
value is a rational standing for the Go `float64`. -/
structure SheetRowUpdate where
  rowIndex : Nat
  provider : String
  dateTime : String
  marketValue : ℚ
deriving Repr, DecidableEq

/-- Embedding of `matchesUser` (src/main.go, lines 421-430): exact name
match, or the persisted fallback string `User ID: <n>`. -/
def matchesUser (sheetUserName logUserName : String) (logUserID : Nat) : Bool :=
  sheetUserName == logUserName || sheetUserName == "User ID: " ++ toString logUserID

/-- Embedding of `matchesItem` (src/main.go, lines 432-441): exact name
match, or the persisted fallback string `Item ID: <n>`. -/
def matchesItem (sheetItemName logItemName : String) (logItemID : Nat) : Bool :=
  sheetItemName == logItemName || sheetItemName == "Item ID: " ++ toString logItemID

/-- The row-acceptance condition of the matching loop in
`processLogItemForUpdates` (src/main.go, lines 356-359): the row must lack a
provider, and both the receiver and the item must match. -/
def logMatches (itemName receiverName : String) (receiverID logItemID : Nat)
    (si : SheetItem) : Bool :=
  !si.hasProvider && matchesUser si.userName receiverName receiverID
    && matchesItem si.itemName itemName logItemID

/-- Embedding of `createSheetRowUpdate` (src/main.go, lines 380-391), with
`marketValueOf` standing for the retry-wrapped market value lookup and
`formatTime` for the Go `15:04:05 - 02/01/06` timestamp formatting. -/
def createSheetRowUpdate (marketValueOf : Nat → ℚ) (formatTime : Int → String)
    (si : SheetItem) (itemID : Nat) (timestamp : Int) (providerName : String) :
    SheetRowUpdate :=
  { rowIndex := si.rowIndex, provider := providerName,
    dateTime := formatTime timestamp, marketValue := marketValueOf itemID }

/-- The matching loop of `processLogItemForUpdates` (src/main.go,
lines 356-374): the candidate rows are scanned in order and the loop
`break`s after the first accepted row, so at most one update is emitted. -/
def matchLoop (marketValueOf : Nat → ℚ) (formatTime : Int → String)
    (itemName receiverName : String) (receiverID logItemID : Nat)
    (timestamp : Int) (providerName : String) :
    List SheetItem → List SheetRowUpdate
  | [] => []
  | si :: rest =>
    if logMatches itemName receiverName receiverID logItemID si then
      [createSheetRowUpdate marketValueOf formatTime si logItemID timestamp providerName]
    else
      matchLoop marketValueOf formatTime itemName receiverName receiverID logItemID
        timestamp providerName rest

/-- Embedding of `processLogItemForUpdates` (src/main.go, lines 347-377,
identical to src/unnamed/part_004, lines 102-133): the item name is resolved
(`itemNameOf`, empty string meaning the lookup failed, which aborts with no
updates), then the sheet rows are scanned by `matchLoop`. -/
def processLogItemForUpdates (itemNameOf : Nat → String) (marketValueOf : Nat → ℚ)
    (formatTime : Int → String) (logItemID : Nat) (timestamp : Int)
    (receiverName : String) (receiverID : Nat) (providerName : String)
    (sheetItems : List SheetItem) : List SheetRowUpdate :=
  let itemName := itemNameOf logItemID
  if itemName = "" then []
  else
    matchLoop marketValueOf formatTime itemName receiverName receiverID logItemID
      timestamp providerName sheetItems

/-- Embedding of the ticker loop of `main` (src/main.go, lines 45-56): tick
`n` invokes `runProcessLoop` directly — there is no deferred `recover` and
no retry wrapper around the cycle anywhere in the repository — so a runtime
panic inside a cycle (modelled as `Except.error`) unwinds `main` and
terminates the process: once a cycle has crashed, no later tick runs.
`cycleResult n` is the outcome of the n-th cycle; the result is the process
state after `n` ticks. -/
def runTickerLoop (cycleResult : Nat → Except String Unit) : Nat → Except String Unit
  | 0 => Except.ok ()
  | n + 1 =>
    match runTickerLoop cycleResult n with
    | Except.ok _ => cycleResult n
    | Except.error e => Except.error e

/-- C5 counterexample: from a fresh client, record 4 failures (circuit still
closed), then a success. `recordSuccess` does not reset the failure counter
when the circuit is closed, so the counter stays at 4, and a single further
failure — one failure after a success, far fewer than 5 — opens the
circuit. This refutes both parts of the claim at a concrete reachable
state. -/
theorem c5_counterexample :
    (recordSuccess (recordFailure 0 (recordFailure 0 (recordFailure 0
        (recordFailure 0 initialClientState))))).failures = 4 ∧
    (recordFailure 0 (recordSuccess (recordFailure 0 (recordFailure 0 (recordFailure 0
        (recordFailure 0 initialClientState)))))).circuitOpen = true := by
  constructor <;> rfl

/-- C5 (amended): a recorded success increments `totalSent` and, only when
the circuit is currently open, also resets the consecutive-failure counter
to 0 and closes the circuit; a success while the circuit is closed leaves
the failure counter (and the closed circuit) unchanged. -/
theorem c5_recordSuccess_resets_only_when_open (s : ClientState) :
    (s.circuitOpen = true →
      recordSuccess s
        = { s with totalSent := s.totalSent + 1, circuitOpen := false, failures := 0 }) ∧
    (s.circuitOpen = false →
      recordSuccess s = { s with totalSent := s.totalSent + 1 }) := by
  constructor <;> intro h <;> simp [recordSuccess, h]

/-- C5 witness: a success recorded on an open breaker closes it and zeroes
the failure count. -/
theorem c5_witness :
    recordSuccess { failures := 5, circuitOpen := true, lastFailure := 7,
                    totalSent := 2, totalFailed := 5, totalRetries := 1 }
      = { failures := 0, circuitOpen := false, lastFailure := 7,
          totalSent := 3, totalFailed := 5, totalRetries := 1 } :=
  (c5_recordSuccess_resets_only_when_open _).1 rfl

/-- C6: the breaker opens on a recorded failure exactly when the failure
count reaches 5 (first conjunct, for a currently closed breaker); while the
circuit is open and at most 30 seconds have passed since the last failure,
`SendNotification` on an enabled client returns the `circuit_open` error
immediately, with the state unchanged and zero `sendSingleNotification`
invocations (second conjunct); and a send attempted more than 30 seconds
after the last failure while open first resets the breaker to closed with a
zero failure count and then proceeds into the attempt loop (third
conjunct). -/
theorem c6_circuit_gate (s : ClientState) (now : Int) (mr : Nat)
    (ao : Nat → Option NotificationError) :
    (s.circuitOpen = false →
      ((recordFailure now s).circuitOpen = true ↔ 5 ≤ s.failures + 1)) ∧
    (s.circuitOpen = true → now - s.lastFailure ≤ 30 →
      sendNotification true mr now ao s
        = (some { typ := "circuit_open", statusCode := 0, attempt := 0 }, s, 0)) ∧
    (s.circuitOpen = true → 30 < now - s.lastFailure →
      isCircuitOpen now s = (false, { s with circuitOpen := false, failures := 0 }) ∧
      sendNotification true mr now ao s
        = sendAttempts mr now ao mr 0 { s with circuitOpen := false, failures := 0 }) := by
  refine ⟨?_, ?_, ?_⟩
  · intro h
    simp [recordFailure, h, apply_ite ClientState.circuitOpen]
  · intro h1 h2
    have hgate : isCircuitOpen now s = (true, s) := by
      simp only [isCircuitOpen, h1]
      rw [if_neg (by simp), if_neg (by omega)]
    simp [sendNotification, hgate]
  · intro h1 h2
    have hgate : isCircuitOpen now s
        = (false, { s with circuitOpen := false, failures := 0 }) := by
      simp only [isCircuitOpen, h1]
      rw [if_neg (by simp), if_pos h2]
    exact ⟨hgate, by simp [sendNotification, hgate]⟩

/-- C6 witness: with the circuit open 10 seconds after the last failure, a
send is rejected with the `circuit_open` error and no attempt is made;
moreover a failure recorded on a closed breaker with 4 prior failures opens
the circuit. -/
theorem c6_witness :
    sendNotification true 3 110 (fun _ => none)
        { failures := 5, circuitOpen := true, lastFailure := 100,
          totalSent := 0, totalFailed := 5, totalRetries := 0 }
      = (some { typ := "circuit_open", statusCode := 0, attempt := 0 },
          { failures := 5, circuitOpen := true, lastFailure := 100,
            totalSent := 0, totalFailed := 5, totalRetries := 0 }, 0) ∧
    ((recordFailure 0 { failures := 4, circuitOpen := false, lastFailure := 0,
                        totalSent := 0, totalFailed := 4, totalRetries := 0 }).circuitOpen = true ↔
      5 ≤ 4 + 1) :=
  ⟨(c6_circuit_gate _ 110 3 (fun _ => none)).2.1 rfl (by norm_num),
    (c6_circuit_gate _ 0 0 (fun _ => none)).1 rfl⟩

/-- C7: errors built from HTTP status codes at least 400 are classified and
retried as claimed: 401/403 give `auth` and other 4xx apart from 429 give
`client`, both non-retryable; 429 gives `rate_limit` and 5xx gives `server`,
both retryable, as are `network` and `timeout` errors; and every error type
outside the known cases is retryable exactly when its status code is at
least 500; moreover the per-send retry loop aborts immediately on a
non-retryable error, recording one failure after a single attempt. -/
theorem c7_retryability (status : Int) (att : Nat) (h4 : 400 ≤ status) :
    ((status = 401 ∨ status = 403) →
      categorizeHTTPError status = "auth" ∧
      NotificationError.IsRetryable ⟨categorizeHTTPError status, status, att⟩ = false) ∧
    (status = 429 →
      categorizeHTTPError status = "rate_limit" ∧
      NotificationError.IsRetryable ⟨categorizeHTTPError status, status, att⟩ = true) ∧
    ((status < 500 ∧ status ≠ 401 ∧ status ≠ 403 ∧ status ≠ 429) →
      categorizeHTTPError status = "client" ∧
      NotificationError.IsRetryable ⟨categorizeHTTPError status, status, att⟩ = false) ∧
    (500 ≤ status →
      categorizeHTTPError status = "server" ∧
      NotificationError.IsRetryable ⟨categorizeHTTPError status, status, att⟩ = true) ∧
    (∀ sc : Int, ∀ a : Nat,
      NotificationError.IsRetryable ⟨"network", sc, a⟩ = true ∧
      NotificationError.IsRetryable ⟨"timeout", sc, a⟩ = true) ∧
    (∀ t : String, ∀ sc : Int, ∀ a : Nat,
      t ≠ "network" → t ≠ "server" → t ≠ "timeout" → t ≠ "rate_limit" →
      t ≠ "auth" → t ≠ "client" →
      NotificationError.IsRetryable ⟨t, sc, a⟩ = decide (500 ≤ sc)) ∧
    (∀ (mr : Nat) (now : Int) (ao : Nat → Option NotificationError)
        (rem a : Nat) (s : ClientState) (e : NotificationError),
      ao a = some e → e.IsRetryable = false →
      sendAttempts mr now ao rem a s
        = (some e, recordFailure now (if 0 < a then incrementRetries s else s), 1)) := by
  refine ⟨?_, ?_, ?_, ?_, ?_, ?_, ?_⟩
  · rintro (rfl | rfl) <;>
      simp [categorizeHTTPError, NotificationError.IsRetryable]
  · rintro rfl
    simp [categorizeHTTPError, NotificationError.IsRetryable]
  · rintro ⟨h5, h1, h2, h3⟩
    have hc : categorizeHTTPError status = "client" := by
      unfold categorizeHTTPError
      rw [if_neg (by omega), if_neg (by omega), if_pos (by omega)]
    refine ⟨hc, ?_⟩
    rw [hc]
    simp [NotificationError.IsRetryable]
  · intro h5
    have hc : categorizeHTTPError status = "server" := by
      unfold categorizeHTTPError
      rw [if_neg (by omega), if_neg (by omega), if_neg (by omega), if_pos (by omega)]
    refine ⟨hc, ?_⟩
    rw [hc]
    simp [NotificationError.IsRetryable]
  · intro sc a
    constructor <;> simp [NotificationError.IsRetryable]
  · intro t sc a h1 h2 h3 h4 h5 h6
    simp [NotificationError.IsRetryable, h1, h2, h3, h4, h5, h6]
  · intro mr now ao rem a s e hao hre
    cases rem <;> simp [sendAttempts, hao, hre]

/-- C7 witness: 404 is classified as a non-retryable `client` error. -/
theorem c7_witness :
    categorizeHTTPError 404 = "client" ∧
    NotificationError.IsRetryable ⟨categorizeHTTPError 404, 404, 1⟩ = false :=
  (c7_retryability 404 1 (by norm_num)).2.2.1 (by norm_num)

/-- C4 counterexample: two supply records in the same batch that normalize
to the same composite key (here two identical records, against an empty
dedup set) both produce appended rows — the loop checks each key only
against the dedup set built from the sheet before the loop, which is never
extended, so the second record is not skipped. -/
theorem c4_counterexample :
    suppliedKey (fun _ => "Lockpick") (fun _ => "Alice") ⟨1, 2, 3⟩
      = suppliedKey (fun _ => "Lockpick") (fun _ => "Alice") ⟨1, 2, 3⟩ ∧
    (processSuppliedItems (fun _ => "Lockpick") (fun _ => "Alice") (fun _ => false)
        [⟨1, 2, 3⟩, ⟨1, 2, 3⟩]).length = 2 :=
  ⟨rfl, rfl⟩

/-- C4 (amended): the rows appended in one cycle are exactly one row per
supplied item whose composite key is absent from the dedup set of existing
sheet keys, in order; a record whose key is already in the set is skipped,
but the set is not extended during the loop, so two records of the same
batch sharing a key each produce a row. -/
theorem c4_dedup_against_existing_only (itemNameOf userNameOf : Nat → String)
    (existing : String → Bool) (items : List SuppliedItem) :
    processSuppliedItems itemNameOf userNameOf existing items
      = (items.filter (fun itm => !existing (suppliedKey itemNameOf userNameOf itm))).map
          (fun itm =>
            suppliedRow (crimeURLOf itm.crimeID) (itemNameOf itm.itemID)
              (userNameOf itm.userID)) := by
  induction items with
  | nil => rfl
  | cons itm rest ih =>
    by_cases h : existing (compositeKey (crimeURLOf itm.crimeID) (userNameOf itm.userID)
        (itemNameOf itm.itemID)) <;>
      simp [processSuppliedItems, suppliedKey, List.filter_cons, h, ih]

/-- C8: for one provider-log item, the matching loop emits at most one
update — the one built from the first candidate row that lacks a provider
and matches both the receiver (exact name or `User ID: <n>` fallback) and
the item (exact name or `Item ID: <n>` fallback); rows after that first
match are never considered, and a failed item-name lookup emits nothing. -/
theorem c8_at_most_one_row (itemNameOf : Nat → String) (marketValueOf : Nat → ℚ)
    (formatTime : Int → String) (logItemID : Nat) (timestamp : Int)
    (receiverName : String) (receiverID : Nat) (providerName : String)
    (sheetItems : List SheetItem) :
    processLogItemForUpdates itemNameOf marketValueOf formatTime logItemID timestamp
        receiverName receiverID providerName sheetItems
      = (if itemNameOf logItemID = "" then []
         else
          ((sheetItems.find?
              (logMatches (itemNameOf logItemID) receiverName receiverID logItemID)).map
            (fun si =>
              createSheetRowUpdate marketValueOf formatTime si logItemID timestamp
                providerName)).toList) ∧
    (processLogItemForUpdates itemNameOf marketValueOf formatTime logItemID timestamp
        receiverName receiverID providerName sheetItems).length ≤ 1 := by
  have hloop : ∀ l : List SheetItem,
      matchLoop marketValueOf formatTime (itemNameOf logItemID) receiverName receiverID
          logItemID timestamp providerName l
        = ((l.find?
              (logMatches (itemNameOf logItemID) receiverName receiverID logItemID)).map
            (fun si =>
              createSheetRowUpdate marketValueOf formatTime si logItemID timestamp
                providerName)).toList := by
    intro l
    induction l with
    | nil => rfl
    | cons si rest ih =>
      by_cases h : logMatches (itemNameOf logItemID) receiverName receiverID logItemID si <;>
        simp [matchLoop, List.find?_cons, h, ih]
  have hmain : processLogItemForUpdates itemNameOf marketValueOf formatTime logItemID
      timestamp receiverName receiverID providerName sheetItems
      = (if itemNameOf logItemID = "" then []
         else
          ((sheetItems.find?
              (logMatches (itemNameOf logItemID) receiverName receiverID logItemID)).map
            (fun si =>
              createSheetRowUpdate marketValueOf formatTime si logItemID timestamp
                providerName)).toList) := by
    by_cases h : itemNameOf logItemID = "" <;>
      simp [processLogItemForUpdates, h, hloop]
  refine ⟨hmain, ?_⟩
  rw [hmain]
  by_cases h : itemNameOf logItemID = ""
  · simp [h]
  · rw [if_neg h]
    cases sheetItems.find?
        (logMatches (itemNameOf logItemID) receiverName receiverID logItemID) <;> simp

/-- C9: a runtime panic inside a cycle terminates the process. The ticker
loop of `main` invokes `runProcessLoop` with no deferred `recover` and no
retry wrapper (the `process-loop` retry profile defined in
src/internal/config/resilience.go is never used), so a cycle that panics at
tick 0 leaves the process crashed — later ticks never run — contradicting
the claim (and CLAUDE.md's stated main-loop protection). -/
theorem c9_panic_terminates_process :
    runTickerLoop
        (fun n => if n = 0 then Except.error "runtime panic in cycle" else Except.ok ()) 2
      = Except.error "runtime panic in cycle" :=
  rfl

/-- Helper for C2: under a never-cancelled parent context and an operation
that fails on every call, the bounded retry loop entered at attempt `a` performs
`N + 1 - a` further invocations and exhausts with the last error. -/
theorem withRetryGo_all_fail {α ε : Type} (N : Nat) (zero : α) (op : Nat → Except ε α)
    (e : Nat → ε) (hop : ∀ n, op n = Except.error (e n)) :
    ∀ fuel a, a ≤ N → N + 1 - a ≤ fuel →
      withRetryGo false N zero op (fun _ => false) (fun _ => false) fuel a
        = some (N + 1 - a, zero, some (RetryError.exhausted (N + 1) (e N))) := by
  intro fuel
  induction fuel with
  | zero => intro a ha hf; omega
  | succ fuel ih =>
    intro a ha hf
    simp only [withRetryGo, Bool.false_eq_true, if_false, hop a]
    by_cases haN : N ≤ a
    · have : a = N := by omega
      subst this
      simp [show a + 1 - a = 1 from by omega]
    · rw [if_neg (by simp [haN]), ih (a + 1) (by omega) (by omega)]
      simp
      omega

/-- C2: with a bounded policy of `maxAttempts = N` and an operation failing
on every call (parent context never cancelled), `WithRetry` invokes the
operation exactly `N + 1` times and returns the zero value of the result
type together with the wrapped error naming the total attempt count `N + 1`
and the last underlying error. -/
theorem c2_bounded_exhaustion {α ε : Type} (N : Nat) (zero : α) (op : Nat → Except ε α)
    (e : Nat → ε) (hop : ∀ n, op n = Except.error (e n)) (fuel : Nat)
    (hf : N + 1 ≤ fuel) :
    withRetry false N zero op (fun _ => false) (fun _ => false) fuel
      = some (N + 1, zero, some (RetryError.exhausted (N + 1) (e N))) := by
  have h := withRetryGo_all_fail N zero op e hop fuel 0 (by omega) (by omega)
  simpa [withRetry] using h

/-- C2 witness: a policy with 2 retries and an always-failing operation is
invoked 3 times and exhausts with the wrapped count 3 and last error 2. -/
theorem c2_witness :
    withRetry false 2 (0 : Nat) (fun n => Except.error n) (fun _ => false) (fun _ => false) 3
      = some (3, 0, some (RetryError.exhausted 3 2)) :=
  c2_bounded_exhaustion 2 0 (fun n => Except.error n) (fun n => n) (fun _ => rfl) 3
    (by omega)

/-- Helper for C3: when the parent context's cancellation wins the backoff
wait after attempt `k` (and no earlier suspension point saw it cancelled),
the loop entered at attempt `a ≤ k` performs `k + 1 - a` further invocations
and returns the context's cancellation error, for any policy under which the
wait after attempt `k` is reached (infinite, or `k` below the retry
budget). -/
theorem withRetryGo_cancel_in_wait {α ε : Type} (inf : Bool) (mr : Nat) (zero : α)
    (op : Nat → Except ε α) (cT cW : Nat → Bool) (k : Nat) (e : Nat → ε)
    (hop : ∀ j, j ≤ k → op j = Except.error (e j))
    (hT : ∀ j, j ≤ k → cT j = false)
    (hW : ∀ j, j < k → cW j = false)
    (hWk : cW k = true)
    (hcond : inf = true ∨ k < mr) :
    ∀ fuel a, a ≤ k → k + 1 - a ≤ fuel →
      withRetryGo inf mr zero op cT cW fuel a
        = some (k + 1 - a, zero, some RetryError.ctxCanceled) := by
  intro fuel
  induction fuel with
  | zero => intro a ha hf; omega
  | succ fuel ih =>
    intro a ha hf
    simp only [withRetryGo, hT a ha, Bool.false_eq_true, if_false, hop a ha]
    have hexh : ¬(inf = false ∧ mr ≤ a) := by
      rcases hcond with h | h
      · simp [h]
      · rintro ⟨-, h2⟩; omega
    rw [if_neg hexh]
    by_cases hak : a = k
    · subst hak
      rw [if_pos hWk]
      simp [show a + 1 - a = 1 from by omega]
    · rw [if_neg (by simp [hW a (by omega)]), ih (a + 1) (by omega) (by omega)]
      simp
      omega

/-- C3: for every policy (bounded or infinite) and every operation failing
up to attempt `k`, if the parent context's cancellation wins the backoff
wait after attempt `k` — a wait that is reached because the policy is
infinite or `k` is below the retry budget — then `WithRetry` returns the
zero value with the parent context's own cancellation error (not the
exhaustion error) after exactly `k + 1` invocations: no further invocation
of the operation happens. -/
theorem c3_cancel_during_wait {α ε : Type} (inf : Bool) (mr : Nat) (zero : α)
    (op : Nat → Except ε α) (cT cW : Nat → Bool) (k : Nat) (e : Nat → ε)
    (hop : ∀ j, j ≤ k → op j = Except.error (e j))
    (hT : ∀ j, j ≤ k → cT j = false)
    (hW : ∀ j, j < k → cW j = false)
    (hWk : cW k = true)
    (hcond : inf = true ∨ k < mr)
    (fuel : Nat) (hf : k + 1 ≤ fuel) :
    withRetry inf mr zero op cT cW fuel
      = some (k + 1, zero, some RetryError.ctxCanceled) := by
  have h := withRetryGo_cancel_in_wait inf mr zero op cT cW k e hop hT hW hWk hcond fuel 0
    (by omega) (by omega)
  simpa [withRetry] using h

/-- C3 witness: a bounded policy with 5 retries whose parent context is
cancelled during the wait after the second failed attempt returns the
cancellation error after exactly 2 invocations. -/
theorem c3_witness :
    withRetry false 5 (0 : Nat) (fun n => Except.error n) (fun _ => false)
        (fun n => n == 1) 2
      = some (2, 0, some RetryError.ctxCanceled) :=
  c3_cancel_during_wait false 5 0 (fun n => Except.error n) (fun _ => false)
    (fun n => n == 1) 1 (fun n => n) (fun _ _ => rfl) (fun _ _ => rfl)
    (fun j hj => by simp only [beq_eq_false_iff_ne]; omega) rfl (Or.inr (by omega)) 2
    (by omega)

/-- C10: the API call counter is incremented exactly by the number of
requests whose underlying HTTP call succeeded: whenever `makeAPIRequest`
completes, the final counter equals the initial one plus 1 on overall
success and plus 0 otherwise — in particular a sequence of failed retried
attempts (exhaustion or cancellation) leaves the counter unchanged, so the
counter always equals the number of successful requests since the last
reset. -/
theorem c10_counter_counts_successes {ρ ε : Type} (mr : Nat) (zero : ρ)
    (httpDo : Nat → Except ε ρ) (cT cW : Nat → Bool) :
    ∀ fuel a c0 res, makeAPIRequestGo mr zero httpDo cT cW fuel a c0 = some res →
      res.1 = c0 + (if res.2.2.2.isNone then 1 else 0) := by
  intro fuel
  induction fuel with
  | zero => intro a c0 res h; simp [makeAPIRequestGo] at h
  | succ fuel ih =>
    intro a c0 res h
    simp only [makeAPIRequestGo] at h
    split at h
    · cases h; simp
    · split at h
      · cases h; simp
      · split at h
        · cases h; simp
        · split at h
          · cases h; simp
          · obtain ⟨r, hr, hfr⟩ := Option.map_eq_some'.mp h
            have hc := ih _ _ _ hr
            cases hfr
            simpa using hc

/-- Helper: `wrap64` is the identity on the int64 range. -/
theorem wrap64_eq_self (x : Int) (h0 : -(2 ^ 63) ≤ x) (h1 : x < 2 ^ 63) : wrap64 x = x := by
  unfold wrap64
  rw [Int.emod_eq_of_lt (by omega) (by omega)]
  omega

/-- C1 counterexample: at `attempt = 0`, `baseDelay = 1ns`, `maxDelay =
100ns` and jitter factor exactly 0.5 (`rand.Float64()` can return 0), the
pre-clamp delay is 1ns and the jittered value `time.Duration(1.0 * 0.5)`
truncates to 0ns, which lies strictly below the claimed lower bound
`0.5 * min(base * 2^min(attempt,30), max) = 0.5ns`. -/
theorem c1_counterexample :
    calculateBackoffDelay 0 1 100 (1 / 2) = 0 ∧
    ¬ ((idealDelay 0 1 100 : ℚ) / 2
        ≤ ((calculateBackoffDelay 0 1 100 (1 / 2) : Int) : ℚ)) := by
  have h : calculateBackoffDelay 0 1 100 (1 / 2) = 0 := by
    simp only [calculateBackoffDelay, truncQ]
    norm_num [wrap64_eq_self]
  refine ⟨h, ?_⟩
  rw [h]
  norm_num [idealDelay]

/-- C1 (amended): for every attempt and every positive `base ≤ max` whose
pre-clamp product `2^min(attempt,30) * base` stays within int64 (no
overflow), and every jitter factor in `[0.5, 1.5)`, the returned delay lies
in `[⌊0.5 * D⌋, 1.5 * D]` where `D = min(2^min(attempt,30) * base, max)` —
the lower endpoint floored because the `time.Duration` conversion truncates
— and the post-jitter clamp guarantees the result never exceeds `max`. -/
theorem c1_backoff_bounds (attempt : Nat) (base maxD : Int) (j : ℚ)
    (hb : 0 < base) (hbm : base ≤ maxD)
    (hov : 2 ^ min attempt 30 * base < 2 ^ 63)
    (hj1 : 1 / 2 ≤ j) (hj2 : j < 3 / 2) :
    ⌊(idealDelay attempt base maxD : ℚ) / 2⌋ ≤ calculateBackoffDelay attempt base maxD j ∧
    (calculateBackoffDelay attempt base maxD j : ℚ)
      ≤ 3 / 2 * (idealDelay attempt base maxD : ℚ) ∧
    calculateBackoffDelay attempt base maxD j ≤ maxD := by
  have hmpos : (0 : Int) < 2 ^ min attempt 30 := pow_pos (by norm_num) _
  have hmb : 0 < 2 ^ min attempt 30 * base := mul_pos hmpos hb
  have hwrap : wrap64 (2 ^ min attempt 30 * base) = 2 ^ min attempt 30 * base :=
    wrap64_eq_self _ (by omega) hov
  have hD : (if wrap64 (2 ^ min attempt 30 * base) > maxD then maxD
        else wrap64 (2 ^ min attempt 30 * base)) = idealDelay attempt base maxD := by
    rw [hwrap]
    unfold idealDelay
    split_ifs <;> omega
  set D := idealDelay attempt base maxD with hDdef
  have hDpos : 0 < D := by
    rw [hDdef]
    unfold idealDelay
    omega
  have hDQ : (0 : ℚ) ≤ (D : ℚ) := by exact_mod_cast hDpos.le
  have hjpos : (0 : ℚ) ≤ j := le_trans (by norm_num) hj1
  have hprod : (0 : ℚ) ≤ (D : ℚ) * j := mul_nonneg hDQ hjpos
  have htr : truncQ ((D : ℚ) * j) = ⌊(D : ℚ) * j⌋ := by
    unfold truncQ
    rw [if_pos hprod]
  have hlow : ⌊(D : ℚ) / 2⌋ ≤ ⌊(D : ℚ) * j⌋ := by
    apply Int.floor_le_floor
    calc (D : ℚ) / 2 = (D : ℚ) * (1 / 2) := by ring
    _ ≤ (D : ℚ) * j := by
        apply mul_le_mul_of_nonneg_left hj1 hDQ
  have hup : ((⌊(D : ℚ) * j⌋ : Int) : ℚ) ≤ 3 / 2 * (D : ℚ) := by
    calc ((⌊(D : ℚ) * j⌋ : Int) : ℚ) ≤ (D : ℚ) * j := Int.floor_le _
    _ ≤ (D : ℚ) * (3 / 2) := mul_le_mul_of_nonneg_left hj2.le hDQ
    _ = 3 / 2 * (D : ℚ) := by ring
  have hDmax : D ≤ maxD := by
    rw [hDdef]; unfold idealDelay; omega
  have hlowmax : ⌊(D : ℚ) / 2⌋ ≤ maxD := by
    have h1 : ⌊(D : ℚ) / 2⌋ ≤ D := by
      have h2 : ((D : ℚ) / 2) ≤ ((D : ℚ)) := by linarith
      calc ⌊(D : ℚ) / 2⌋ ≤ ⌊(D : ℚ)⌋ := Int.floor_le_floor h2
      _ = D := Int.floor_intCast D
    omega
  show ⌊(D : ℚ) / 2⌋ ≤ calculateBackoffDelay attempt base maxD j ∧ _ ∧ _
  simp only [calculateBackoffDelay, hD, htr]
  split_ifs with hclamp
  · refine ⟨hlowmax, ?_, le_refl maxD⟩
    have h3 : ((maxD : Int) : ℚ) ≤ ((⌊(D : ℚ) * j⌋ : Int) : ℚ) := by exact_mod_cast hclamp.le
    linarith
  · push_neg at hclamp
    exact ⟨hlow, hup, hclamp⟩

/-- C1 witness: at attempt 2 with base 10ns, max 100ns and jitter 0.75, all
hypotheses hold and the returned delay obeys the amended bounds. -/
theorem c1_witness :
    0 < (10 : Int) ∧ (10 : Int) ≤ 100 ∧ 2 ^ min 2 30 * (10 : Int) < 2 ^ 63 ∧
    (1 / 2 : ℚ) ≤ 3 / 4 ∧ (3 / 4 : ℚ) < 3 / 2 ∧
    (⌊(idealDelay 2 10 100 : ℚ) / 2⌋ ≤ calculateBackoffDelay 2 10 100 (3 / 4) ∧
      (calculateBackoffDelay 2 10 100 (3 / 4) : ℚ)
        ≤ 3 / 2 * (idealDelay 2 10 100 : ℚ) ∧
      calculateBackoffDelay 2 10 100 (3 / 4) ≤ 100) :=
  ⟨by norm_num, by norm_num, by norm_num, by norm_num, by norm_num,
    c1_backoff_bounds 2 10 100 (3 / 4) (by norm_num) (by norm_num) (by norm_num)
      (by norm_num) (by norm_num)⟩

/-- C10 witness: two failed attempts under a policy with 1 retry exhaust the
budget and leave the counter at its initial value 5. -/
theorem c10_witness :
    makeAPIRequestGo 1 (0 : Nat) (fun _ => Except.error ()) (fun _ => false)
        (fun _ => false) 2 0 5
      = some (5, 2, 0, some (RetryError.exhausted 2 ())) ∧
    (5 : Nat)
      = 5 + (if (some (RetryError.exhausted 2 ()) : Option (RetryError Unit)).isNone
          then 1 else 0) :=
  ⟨rfl,
    c10_counter_counts_successes 1 0 (fun _ => Except.error ()) (fun _ => false)
      (fun _ => false) 2 0 5 (5, 2, 0, some (RetryError.exhausted 2 ())) rfl⟩

end TornOC
